import Mathlib

/-!
Verification of the TelegramSignalTrader backend against its natural-language
specification.  Shallow embedding of:
* the trade-lifecycle orchestrator (`backend/app/api/trades.py`),
* the Angel One broker backend and its symbol master
  (`backend/app/services/broker_service.py`),
* the broker registry (`backend/app/services/broker_registry.py`),
* the symbol resolver (`backend/app/services/symbol_resolver.py`),
* the auto-trade price gate (`backend/app/services/auto_trade_service.py`).

Python floats are modelled as rationals, datetimes as explicit records or
natural-number timestamps, dicts as association lists preserving insertion
order, and fallible operations return explicit result values.
-/

namespace SignalTrader

/-- Python `str.upper()` (ASCII data throughout this code base). -/
def pyUpper (s : String) : String := String.mk (s.data.map Char.toUpper)

/-- Python `str.lower()` (ASCII data throughout this code base). -/
def pyLower (s : String) : String := String.mk (s.data.map Char.toLower)

/-- ASCII whitespace, as matched by Python `str.strip()` and regex `\s`. -/
def isPySpace (c : Char) : Bool :=
  c = ' ' || c = '\t' || c = '\n' || c = '\r' || c = '\x0b' || c = '\x0c'

/-- Python `str.strip()`. -/
def pyStrip (s : String) : String :=
  String.mk (((s.data.dropWhile isPySpace).reverse.dropWhile isPySpace).reverse)

/-- Lexicographic comparison by code point, Python string `<=`. -/
def lexLe : List Char → List Char → Bool
  | [], _ => true
  | _ :: _, [] => false
  | x :: xs, y :: ys =>
    if x.val < y.val then true
    else if y.val < x.val then false
    else lexLe xs ys

/-- Python string `<=`. -/
def strLe (a b : String) : Bool := lexLe a.data b.data

/-- Stable insertion of `x` after all earlier elements `y` with `le y x`. -/
def insertSorted (le : α → α → Bool) (x : α) : List α → List α
  | [] => [x]
  | y :: ys => if le y x then y :: insertSorted le x ys else x :: y :: ys

/-- Stable ascending sort, Python `list.sort`. -/
def pySort (le : α → α → Bool) (l : List α) : List α :=
  l.foldl (fun acc x => insertSorted le x acc) []

/-- Trade lifecycle status values stored in `Trade.status`
(`backend/app/api/trades.py` writes the string literals
"PENDING", "SUBMITTED", "OPEN", "EXECUTED", "REJECTED", "CANCELLED",
"FAILED"). -/
inductive Status where
  | PENDING
  | SUBMITTED
  | OPEN
  | EXECUTED
  | REJECTED
  | CANCELLED
  | FAILED
deriving DecidableEq, Repr

/-- Position of a status along the forward order
`PENDING < SUBMITTED < OPEN < {EXECUTED, REJECTED, CANCELLED}` of the spec;
`FAILED` is also terminal. -/
def statusRank : Status → Nat
  | .PENDING => 0
  | .SUBMITTED => 1
  | .OPEN => 2
  | .EXECUTED => 3
  | .REJECTED => 3
  | .CANCELLED => 3
  | .FAILED => 3

/-- Terminal statuses of the spec state machine. -/
def isTerminal : Status → Bool
  | .EXECUTED => true
  | .REJECTED => true
  | .CANCELLED => true
  | .FAILED => true
  | _ => false

/-- One mutable trade row (the fields of `app/models/models.py::Trade` that
the trade lifecycle code reads or writes).  Prices are rationals,
timestamps are naturals. -/
structure Trade where
  symbol : String
  action : String
  quantity : Nat
  entry_price : Option ℚ
  target_price : Option ℚ
  stop_loss : Option ℚ
  order_type : String
  exchange : String
  product_type : String
  status : Status
  order_id : Option String
  broker_status : Option String
  broker_rejection_reason : Option String
  filled_quantity : Option Nat
  average_price : Option ℚ
  execution_price : Option ℚ
  execution_time : Option Nat
  last_status_check : Option Nat
  notes : Option String
  error_message : Option String
deriving DecidableEq, Repr

/-- Python `a or b` on an optional number: `None` and `0` are falsy. -/
def orFalsyQ : Option ℚ → Option ℚ → Option ℚ
  | some x, b => if x = 0 then b else some x
  | none, b => b

/-- Python `a or b` on an optional string: `None` and `""` are falsy. -/
def orFalsyStr : Option String → String → String
  | some s, d => if s = "" then d else s
  | none, d => d

/-- One row of the order book returned by
`AngelOneBrokerService.get_all_order_statuses` (the dict appended at
`broker_service.py:609-618`). -/
structure BrokerOrder where
  order_id : String
  broker_status : String
  internal_status : String
  filled_quantity : Option Nat
  average_price : Option ℚ
  rejection_reason : Option String
deriving DecidableEq, Repr

/-- The success payload of `AngelOneBrokerService.get_order_status`
(`broker_service.py:536-551`), restricted to the fields the trade API reads. -/
structure OrderStatusResult where
  broker_status : String
  internal_status : String
  filled_quantity : Option Nat
  average_price : Option ℚ
  rejection_reason : Option String
deriving DecidableEq, Repr

/-- Per-trade body of the reconciliation sweep
(`trades.py::sync_all_order_statuses`, lines 503-525), applied when the
broker order book contains the trade's order id. -/
def syncApplyOrder (now : Nat) (t : Trade) (bo : BrokerOrder) : Trade :=
  let t1 := { t with
    broker_status := some bo.broker_status
    filled_quantity := bo.filled_quantity
    average_price := bo.average_price
    last_status_check := some now }
  if bo.internal_status = "EXECUTED" ∧ t.status ≠ .EXECUTED then
    { t1 with status := .EXECUTED
              execution_price := orFalsyQ bo.average_price t.entry_price }
  else if bo.internal_status = "REJECTED" ∧ t.status ≠ .REJECTED then
    { t1 with status := .REJECTED
              broker_rejection_reason := bo.rejection_reason
              error_message := bo.rejection_reason }
  else if bo.internal_status = "CANCELLED" ∧ t.status ≠ .CANCELLED then
    { t1 with status := .CANCELLED }
  else if bo.internal_status = "OPEN" ∧
      ¬(t.status = .EXECUTED ∨ t.status = .REJECTED ∨ t.status = .CANCELLED) then
    { t1 with status := .OPEN }
  else
    t1

/-- Filter deciding which trades the sweep fetches
(`trades.py:481-484`): order id present and status in
SUBMITTED, OPEN, PENDING or EXECUTED. -/
def syncEligible (t : Trade) : Bool :=
  t.order_id.isSome &&
    (t.status = .SUBMITTED || t.status = .OPEN ||
     t.status = .PENDING || t.status = .EXECUTED)

/-- Lookup in the `order_id -> broker order` map built at `trades.py:495`. -/
def lookupOrder (oid : String) (book : List (String × BrokerOrder)) :
    Option BrokerOrder :=
  (book.find? (fun p => p.1 == oid)).map (·.2)

/-- Sweep action on a single fetched trade (`trades.py:500-503`):
a trade whose order id is absent from the book is left untouched. -/
def syncSweepTrade (now : Nat) (book : List (String × BrokerOrder))
    (t : Trade) : Trade :=
  match t.order_id with
  | none => t
  | some oid =>
    match lookupOrder oid book with
    | none => t
    | some bo => syncApplyOrder now t bo

/-- The whole reconciliation sweep (`trades.py::sync_all_order_statuses`)
over the locally tracked trades: ineligible trades are not fetched and
therefore unchanged. -/
def syncAllOrderStatuses (now : Nat) (book : List (String × BrokerOrder))
    (trades : List Trade) : List Trade :=
  trades.map (fun t => if syncEligible t then syncSweepTrade now book t else t)

/-- Status update of the per-trade refresh endpoint
(`trades.py::refresh_trade_status`, lines 579-597).  Unlike the sweep, the
OPEN branch carries no guard against terminal statuses. -/
def refreshApplyStatus (now : Nat) (t : Trade) (os : OrderStatusResult) :
    Trade :=
  let t1 := { t with
    broker_status := some os.broker_status
    filled_quantity := os.filled_quantity
    average_price := os.average_price
    last_status_check := some now }
  if os.internal_status = "EXECUTED" then
    { t1 with status := .EXECUTED
              execution_price := orFalsyQ os.average_price t.entry_price }
  else if os.internal_status = "REJECTED" then
    { t1 with status := .REJECTED
              broker_rejection_reason := os.rejection_reason
              error_message := os.rejection_reason }
  else if os.internal_status = "CANCELLED" then
    { t1 with status := .CANCELLED }
  else if os.internal_status = "OPEN" then
    { t1 with status := .OPEN }
  else
    t1

/-- Post-submission status update inside `execute_trade_internal`
(`trades.py:301-319`); any internal status other than EXECUTED, REJECTED
or CANCELLED sends the trade to OPEN. -/
def execApplyStatus (now : Nat) (t : Trade) (os : OrderStatusResult) : Trade :=
  let t1 := { t with
    broker_status := some os.broker_status
    filled_quantity := os.filled_quantity
    average_price := os.average_price
    last_status_check := some now }
  if os.internal_status = "EXECUTED" then
    { t1 with status := .EXECUTED
              execution_price := orFalsyQ os.average_price t.entry_price }
  else if os.internal_status = "REJECTED" then
    { t1 with status := .REJECTED
              broker_rejection_reason := os.rejection_reason
              error_message := os.rejection_reason }
  else if os.internal_status = "CANCELLED" then
    { t1 with status := .CANCELLED }
  else
    { t1 with status := .OPEN }

/-- Output of `SymbolResolver.resolve_symbol` as consumed by
`execute_trade_internal` (the dicts built in `symbol_resolver.py`). -/
structure ResolveResult where
  success : Bool
  original : String
  resolved_symbol : String
  token : Option String
  exchange : String
  instrument_type : String
  message : String
deriving DecidableEq, Repr

/-- Result of `AngelOneBrokerService.place_order` as read by the caller:
either a success with an order id or an error message. -/
inductive PlaceResult where
  | success (order_id : String)
  | error (message : String)
deriving DecidableEq, Repr

/-- The argument bundle `execute_trade_internal` passes to
`broker_service.place_order` (`trades.py:281-289`). -/
structure PlaceRequest where
  symbol : String
  action : String
  quantity : Nat
  exchange : String
  order_type : String
  product_type : String
  price : Option ℚ
deriving DecidableEq, Repr

/-- Resolution step of `execute_trade_internal` (`trades.py:263-278`):
on success the symbol and exchange are rewritten and noted; on failure the
warning is only logged and the trade is left untouched. -/
def applyResolution (t : Trade) (res : ResolveResult) : Trade :=
  if res.success then
    let t1 :=
      if res.resolved_symbol ≠ t.symbol then
        { t with
          notes := some ("Symbol resolved: " ++ t.symbol ++ " → " ++
            res.resolved_symbol)
          symbol := res.resolved_symbol }
      else t
    if res.exchange ≠ t1.exchange then
      { t1 with
        notes := some (orFalsyStr t1.notes "" ++ " (exchange: " ++
          t1.exchange ++ " → " ++ res.exchange ++ ")")
        exchange := res.exchange }
    else t1
  else t

/-- `execute_trade_internal` (`trades.py:238-340`) with the broker replies
passed in as data: the resolver output, the `place_order` reply, and the
`get_order_status` reply (`none` models a non-success status fetch, which
skips the post-submission update).  Returns the updated trade together with
the order request actually sent (`none` when no order was placed). -/
def executeTradeInternal (loggedIn : Bool) (t : Trade) (res : ResolveResult)
    (place : PlaceResult) (ostat : Option OrderStatusResult) (now : Nat) :
    Trade × Option PlaceRequest :=
  if ¬loggedIn then
    ({ t with status := .FAILED
              error_message := some "Broker not logged in" }, none)
  else
    let t1 := applyResolution t res
    let req : PlaceRequest :=
      { symbol := t1.symbol, action := t1.action, quantity := t1.quantity
        exchange := t1.exchange, order_type := t1.order_type
        product_type := t1.product_type, price := t1.entry_price }
    match place with
    | .success oid =>
      let t2 := { t1 with order_id := some oid
                          status := .SUBMITTED
                          execution_time := some now }
      match ostat with
      | some os => (execApplyStatus now t2 os, some req)
      | none => (t2, some req)
    | .error msg =>
      ({ t1 with status := .FAILED, error_message := some msg }, some req)

/-! Angel One broker backend (`backend/app/services/broker_service.py`). -/

/-- Generic result of a backend call: the `{"status": "error"/"success"}`
dicts the service returns. -/
inductive ApiResult (α : Type) where
  | error (message : String)
  | ok (data : α)
deriving DecidableEq, Repr

/-- One raw order dict of the vendor order book
(`smart_api.orderBook()` reply), restricted to the keys the service reads. -/
structure VendorOrder where
  orderid : String
  orderstatus : String
  filledshares : Option Nat
  averageprice : Option ℚ
  text : Option String
deriving DecidableEq, Repr

/-- Translation of a vendor order-status string into the internal status
vocabulary.  Both `get_order_status` (`broker_service.py:521-534`) and
`get_all_order_statuses` (`broker_service.py:596-607`) lower-case the
vendor string and run this exact chain of comparisons. -/
def internalStatusOf (orderstatus : String) : String :=
  let broker_status := pyLower orderstatus
  if broker_status = "complete" then "EXECUTED"
  else if broker_status = "rejected" then "REJECTED"
  else if broker_status = "cancelled" then "CANCELLED"
  else if broker_status = "open" ∨ broker_status = "pending" ∨
      broker_status = "trigger pending" ∨
      broker_status = "after market order req received" then "OPEN"
  else "PENDING"

/-- Mutable state of `AngelOneBrokerService`: the attributes the class
assigns (`smart_api`, `_client_id`, `_is_logged_in`), plus a flag recording
whether the attribute `_refresh_token` — read by the `place_order`
pre-flight check — has ever been assigned on the instance. -/
structure AngelState where
  smartApi : Bool
  clientId : Option String
  isLoggedIn : Bool
  refreshTokenSet : Bool
deriving DecidableEq, Repr

/-- Python `float(x or 0)` on an optional number. -/
def pyFloatOrZero : Option ℚ → ℚ
  | some x => if x = 0 then 0 else x
  | none => 0

/-- `AngelOneBrokerService.get_order_status` (`broker_service.py:499-576`)
with the vendor order-book reply passed in as data.  The Boolean records
whether the vendor API was invoked. -/
def getOrderStatus (s : AngelState) (vendor : ApiResult (List VendorOrder))
    (order_id : String) : ApiResult OrderStatusResult × Bool :=
  if !s.isLoggedIn || !s.smartApi then (.error "Not logged in", false)
  else
    match vendor with
    | .error msg => (.error msg, true)
    | .ok orders =>
      match orders.find? (fun o => o.orderid == order_id) with
      | some o =>
        let broker_status := pyLower o.orderstatus
        (.ok { broker_status := broker_status
               internal_status := internalStatusOf o.orderstatus
               filled_quantity := some (o.filledshares.getD 0)
               average_price := some (pyFloatOrZero o.averageprice)
               rejection_reason :=
                 if broker_status = "rejected" then some (o.text.getD "")
                 else none }, true)
      | none => (.error "Order not found in order book", true)

/-- `AngelOneBrokerService.get_all_order_statuses`
(`broker_service.py:578-635`), producing the order list the reconciliation
sweep keys by order id. -/
def getAllOrderStatuses (s : AngelState)
    (vendor : ApiResult (List VendorOrder)) :
    ApiResult (List BrokerOrder) × Bool :=
  if !s.isLoggedIn || !s.smartApi then (.error "Not logged in", false)
  else
    match vendor with
    | .error msg => (.error msg, true)
    | .ok orders =>
      (.ok (orders.map (fun o =>
        let broker_status := pyLower o.orderstatus
        { order_id := o.orderid
          broker_status := broker_status
          internal_status := internalStatusOf o.orderstatus
          filled_quantity := some (o.filledshares.getD 0)
          average_price := some (pyFloatOrZero o.averageprice)
          rejection_reason :=
            if broker_status = "rejected" then some (o.text.getD "")
            else none })), true)

/-- `AngelOneBrokerService.place_order` (`broker_service.py:368-497`): the
not-logged-in guard, then the session re-validation that reads
`self._refresh_token` (an `AttributeError` when the attribute was never
assigned lands in the `except` handler, which logs a warning and
proceeds), then the vendor call whose normalized outcome is passed in as
`vendor`.  Returns the reply, the successor state, and whether the vendor
order API was invoked. -/
def placeOrder (s : AngelState) (profileOk : Bool) (vendor : PlaceResult) :
    (PlaceResult × AngelState) × Bool :=
  if !s.isLoggedIn || !s.smartApi then ((.error "Not logged in", s), false)
  else if s.refreshTokenSet ∧ ¬profileOk then
    ((.error "Session expired, please re-login",
      { s with isLoggedIn := false }), false)
  else ((vendor, s), true)

/-- `cancel_order` (`broker_service.py:708-729`). -/
def cancelOrder (s : AngelState) (vendor : ApiResult Unit) :
    ApiResult Unit × Bool :=
  if !s.isLoggedIn || !s.smartApi then (.error "Not logged in", false)
  else
    match vendor with
    | .ok _ => (.ok (), true)
    | .error msg => (.error msg, true)

/-- Opaque vendor payload passed through by the query methods that return
the vendor dict unchanged (`position()`, `holding()`, `orderBook()`,
`rmsLimit()`, `ltpData()`). -/
structure VendorPayload where
  raw : String
deriving DecidableEq, Repr

/-- `get_positions` (`broker_service.py:637-649`). -/
def getPositions (s : AngelState) (vendor : ApiResult VendorPayload) :
    ApiResult VendorPayload × Bool :=
  if !s.isLoggedIn || !s.smartApi then (.error "Not logged in", false)
  else (vendor, true)

/-- `get_holdings` (`broker_service.py:651-663`). -/
def getHoldings (s : AngelState) (vendor : ApiResult VendorPayload) :
    ApiResult VendorPayload × Bool :=
  if !s.isLoggedIn || !s.smartApi then (.error "Not logged in", false)
  else (vendor, true)

/-- `get_order_book` (`broker_service.py:665-677`). -/
def getOrderBook (s : AngelState) (vendor : ApiResult VendorPayload) :
    ApiResult VendorPayload × Bool :=
  if !s.isLoggedIn || !s.smartApi then (.error "Not logged in", false)
  else (vendor, true)

/-- `get_funds` (`broker_service.py:679-691`). -/
def getFunds (s : AngelState) (vendor : ApiResult VendorPayload) :
    ApiResult VendorPayload × Bool :=
  if !s.isLoggedIn || !s.smartApi then (.error "Not logged in", false)
  else (vendor, true)

/-- `get_ltp` (`broker_service.py:693-706`). -/
def getLtp (s : AngelState) (vendor : ApiResult VendorPayload) :
    ApiResult VendorPayload × Bool :=
  if !s.isLoggedIn || !s.smartApi then (.error "Not logged in", false)
  else (vendor, true)

/-- State after `__init__` when no saved session is found or restoration
fails before `smart_api` is assigned (`broker_service.py:184-236`). -/
def initNoSession : AngelState :=
  { smartApi := false, clientId := none, isLoggedIn := false
    refreshTokenSet := false }

/-- State after `__init__` when a saved session is restored and validated
(`broker_service.py:219-224`). -/
def initRestored (cid : String) : AngelState :=
  { smartApi := true, clientId := some cid, isLoggedIn := true
    refreshTokenSet := false }

/-- State after `__init__` when restoration raises after `smart_api` was
assigned (outer handler at `broker_service.py:234`). -/
def initRestoreError : AngelState :=
  { smartApi := true, clientId := none, isLoggedIn := false
    refreshTokenSet := false }

/-- Successful `login` (`broker_service.py:246-355`). -/
def loginSuccessStep (s : AngelState) (cid : String) : AngelState :=
  { s with smartApi := true, clientId := some cid, isLoggedIn := true }

/-- Failed `login`: `smart_api` was reassigned before the failure
(`broker_service.py:249`), the login flags are untouched. -/
def loginFailStep (s : AngelState) : AngelState :=
  { s with smartApi := true }

/-- `logout` (`broker_service.py:753-762`). -/
def logoutStep (s : AngelState) : AngelState :=
  { s with smartApi := false, isLoggedIn := false }

/-- States an `AngelOneBrokerService` instance can be in: one of the
constructor outcomes followed by any sequence of method calls that mutate
state (`login`, `logout`, and the state effect of `place_order`). -/
inductive Reachable : AngelState → Prop where
  | init_no_session : Reachable initNoSession
  | init_restored (cid : String) : Reachable (initRestored cid)
  | init_restore_error : Reachable initRestoreError
  | login_success {s : AngelState} (cid : String) :
      Reachable s → Reachable (loginSuccessStep s cid)
  | login_fail {s : AngelState} :
      Reachable s → Reachable (loginFailStep s)
  | logout {s : AngelState} :
      Reachable s → Reachable (logoutStep s)
  | place_order {s : AngelState} (profileOk : Bool) (vendor : PlaceResult) :
      Reachable s → Reachable (placeOrder s profileOk vendor).1.2

/-! Symbol master / instrument index
(`broker_service.py::SymbolMaster`). -/

/-- One record of the instrument-master dataset, with the keys
`SymbolMaster` reads. -/
structure Instrument where
  symbol : String
  name : String
  exch_seg : String
  token : String
  instrumenttype : String
deriving DecidableEq, Repr

/-- A Python dict keyed by strings, as an insertion-ordered association
list with unique keys. -/
abbrev InstDict := List (String × Instrument)

/-- Python `k in d`. -/
def dictContains (d : InstDict) (k : String) : Bool :=
  d.any (fun p => p.1 == k)

/-- Python `d.get(k)`. -/
def dictGet (d : InstDict) (k : String) : Option Instrument :=
  (d.find? (fun p => p.1 == k)).map (·.2)

/-- Python `d[k] = v`: overwrite in place, else append (dicts preserve
insertion order). -/
def dictSet (d : InstDict) (k : String) (v : Instrument) : InstDict :=
  if dictContains d k then
    d.map (fun p => if p.1 == k then (k, v) else p)
  else d ++ [(k, v)]

/-- Append `inst` to the bucket of `k` in the name index, creating the
bucket if absent (`broker_service.py:112-114`). -/
def nameIndexAppend (ni : List (String × List Instrument)) (k : String)
    (inst : Instrument) : List (String × List Instrument) :=
  if ni.any (fun p => p.1 == k) then
    ni.map (fun p => if p.1 == k then (p.1, p.2 ++ [inst]) else p)
  else ni ++ [(k, [inst])]

/-- The two lookup structures `SymbolMaster` maintains:
`_instruments` and `_name_index`. -/
structure IndexState where
  instruments : InstDict
  nameIndex : List (String × List Instrument)
deriving DecidableEq, Repr

/-- The state right after `_build_index` resets both structures
(`broker_service.py:92-93`). -/
def emptyIndex : IndexState := { instruments := [], nameIndex := [] }

/-- Body of the `_build_index` loop for one instrument
(`broker_service.py:95-115`). -/
def buildStep (st : IndexState) (inst : Instrument) : IndexState :=
  let key := inst.exch_seg ++ ":" ++ inst.symbol
  let d1 := dictSet st.instruments key inst
  let tradingKey := inst.exch_seg ++ ":" ++ inst.name
  let d2 := if dictContains d1 tradingKey then d1 else dictSet d1 tradingKey inst
  let nameUpper := pyUpper inst.name
  if nameUpper ≠ "" then
    { instruments := dictSet d2 tradingKey inst
      nameIndex := nameIndexAppend st.nameIndex nameUpper inst }
  else
    { instruments := d2, nameIndex := st.nameIndex }

/-- The fully rebuilt index `_build_index` leaves behind. -/
def buildIndex (insts : List Instrument) : IndexState :=
  insts.foldl buildStep emptyIndex

/-- States visible after each assignment of the `_build_index` loop,
starting from the accumulator `acc`. -/
def buildStatesFrom (acc : IndexState) : List Instrument → List IndexState
  | [] => [acc]
  | i :: rest => acc :: buildStatesFrom (buildStep acc i) rest

/-- All index states a reader can observe while `_build_index` runs:
the state before the call (`old`), the state right after both structures
are reset in place (`broker_service.py:92-93`), and the state after each
loop iteration.  The structures are mutated in place on `self`, so every
element of this list is reader-visible. -/
def buildIndexStates (old : IndexState) (insts : List Instrument) :
    List IndexState :=
  old :: buildStatesFrom emptyIndex insts

/-- `SymbolMaster.get_token` (`broker_service.py:117-138`) on a loaded
index: exact `exchange:symbol` key, then the NSE `-EQ` retry, then a
linear scan on the display name. -/
def getToken (st : IndexState) (symbol : String) (exchange : String) :
    Option String :=
  let key := exchange ++ ":" ++ symbol
  match dictGet st.instruments key with
  | some inst => some inst.token
  | none =>
    match (if exchange = "NSE" then
        dictGet st.instruments (exchange ++ ":" ++ symbol ++ "-EQ")
      else none) with
    | some inst => some inst.token
    | none =>
      (st.instruments.find? (fun p =>
        pyUpper p.2.name == pyUpper symbol && p.2.exch_seg == exchange)).map
        (fun p => p.2.token)

/-- Python `needle in hay` on character lists. -/
def isSubstringOf (needle : List Char) : List Char → Bool
  | [] => needle.isEmpty
  | c :: t => needle.isPrefixOf (c :: t) || isSubstringOf needle t

/-- Python `needle in hay` on strings. -/
def strContains (hay needle : String) : Bool :=
  isSubstringOf needle.data hay.data

/-- One entry of the list `SymbolMaster.search_symbol` returns
(`broker_service.py:166-172`). -/
structure SearchResult where
  symbol : String
  name : String
  token : String
  exchange : String
  instrument_type : String
deriving DecidableEq, Repr

/-- The `search_symbol` loop (`broker_service.py:149-172`): walk the dict
in insertion order, skip duplicates by `token:exchange`, keep
case-insensitive substring matches on name or symbol filtered by exchange,
stop at `limit`. -/
def searchLoop (queryUpper : String) (exchange : Option String) (limit : Nat) :
    InstDict → List String → List SearchResult → List SearchResult
  | [], _, results => results
  | (_, inst) :: rest, seen, results =>
    if limit ≤ results.length then results
    else
      let name := pyUpper inst.name
      let symbol := pyUpper inst.symbol
      let uniqueKey := inst.token ++ ":" ++ inst.exch_seg
      if seen.contains uniqueKey then
        searchLoop queryUpper exchange limit rest seen results
      else if strContains name queryUpper || strContains symbol queryUpper then
        if exchange = none ∨ exchange = some inst.exch_seg then
          searchLoop queryUpper exchange limit rest (seen ++ [uniqueKey])
            (results ++ [{ symbol := inst.symbol, name := inst.name
                           token := inst.token, exchange := inst.exch_seg
                           instrument_type := inst.instrumenttype }])
        else searchLoop queryUpper exchange limit rest seen results
      else searchLoop queryUpper exchange limit rest seen results

/-- `SymbolMaster.search_symbol` (`broker_service.py:140-174`) on a loaded
index. -/
def searchSymbol (st : IndexState) (query : String) (exchange : Option String)
    (limit : Nat) : List SearchResult :=
  searchLoop (pyUpper query) exchange limit st.instruments [] []

/-- Loading flags of the symbol master (`_loaded`, `_loading`) beside the
index itself. -/
structure SymbolMasterState where
  index : IndexState
  loaded : Bool
  loading : Bool
deriving DecidableEq, Repr

/-- `SymbolMaster.load_instruments` (`broker_service.py:40-88`) with the
I/O outcomes passed in as data: `cacheData` is the parsed cache file when
it exists, parses and is younger than 24 hours, `downloadData` the parsed
download when the HTTP fetch succeeds. -/
def loadInstruments (st : SymbolMasterState) (forceRefresh : Bool)
    (cacheData : Option (List Instrument))
    (downloadData : Option (List Instrument)) : SymbolMasterState × Bool :=
  if st.loaded ∧ ¬forceRefresh then (st, true)
  else if st.loading then (st, false)
  else
    match (if forceRefresh then none else cacheData) with
    | some l => ({ index := buildIndex l, loaded := true, loading := false }, true)
    | none =>
      match downloadData with
      | some l =>
        ({ index := buildIndex l, loaded := true, loading := false }, true)
      | none => ({ st with loading := false }, false)

/-- `AngelOneBrokerService.search_symbols` (`broker_service.py:745-747`):
delegates straight to the shared symbol master, with no logged-in check. -/
def searchSymbols (_s : AngelState) (master : IndexState) (query : String)
    (exchange : Option String) : List SearchResult :=
  searchSymbol master query exchange 10

/-- `AngelOneBrokerService.refresh_instruments` (`broker_service.py:749-751`):
forces a reload of the shared symbol master, with no logged-in check. -/
def refreshInstruments (_s : AngelState) (master : SymbolMasterState)
    (downloadData : Option (List Instrument)) : SymbolMasterState × Bool :=
  loadInstruments master true none downloadData

/-! Broker registry (`backend/app/services/broker_registry.py`). -/

/-- Registry state: the registered broker types in registration order
(the `_brokers` dict keys) and the default broker.  Broker classes and the
instance cache are irrelevant to the claims modelled here; an instance is
identified by its broker type. -/
structure RegistryState where
  brokers : List String
  defaultBroker : Option String
deriving DecidableEq, Repr

/-- The freshly constructed registry. -/
def emptyRegistry : RegistryState := { brokers := [], defaultBroker := none }

/-- `BrokerRegistry.register` (`broker_registry.py:33-48`): insert into the
`_brokers` dict and make the first registered type the default. -/
def registerBroker (r : RegistryState) (t : String) : RegistryState :=
  { brokers := if r.brokers.contains t then r.brokers else r.brokers ++ [t]
    defaultBroker :=
      match r.defaultBroker with
      | none => some t
      | some d => some d }

/-- `BrokerRegistry.create_broker` (`broker_registry.py:89-119`) with the
instance identified by its broker type; `none` models the `ValueError`
raised for an unregistered type. -/
def createBroker (r : RegistryState) (t : String) : Option String :=
  if r.brokers.contains t then some t else none

/-- The `AppSettings` row as read by `get_active_broker`; the
`active_broker_type` column exists on the model
(`models.py:117`), so `hasattr` is always true and only the value matters. -/
structure SettingsRow where
  active_broker_type : Option String
deriving DecidableEq, Repr

/-- `BrokerRegistry.get_active_broker` (`broker_registry.py:121-146`):
no settings row falls back to the default broker; a row whose selector is
falsy (`None` or `""`) returns `None`; otherwise `create_broker`, with the
`ValueError` for an unregistered type caught and turned into `None`. -/
def getActiveBroker (r : RegistryState) (settings : Option SettingsRow) :
    Option String :=
  match settings with
  | none =>
    match r.defaultBroker with
    | some d => createBroker r d
    | none => none
  | some row =>
    match row.active_broker_type with
    | none => none
    | some t => if t = "" then none else createBroker r t

/-! Auto-trade price gate
(`backend/app/services/auto_trade_service.py::check_price_availability`). -/

/-- The `data` field of the `get_ltp` reply as the gate inspects it:
absent/`None` (also covering an empty dict, which is equally falsy), a bare
number, or a quote dict with the three price keys the gate tries. -/
inductive LtpData where
  | absent
  | num (x : ℚ)
  | dict (ltp last_price close : Option ℚ)
deriving DecidableEq, Repr

/-- Python truthiness of an optional number. -/
def pyTruthyQ : Option ℚ → Bool
  | some x => !(x == 0)
  | none => false

/-- Python `a or b` keeping the option. -/
def pyOrQ (a b : Option ℚ) : Option ℚ := if pyTruthyQ a then a else b

/-- Reasons `check_price_availability` can refuse, one per reason string
built in the source (`auto_trade_service.py:436-439, 453-456, 470-478`).
The deviation in the payload is kept exact; the source rounds it for
display only. -/
inductive PriceCheckReason where
  | couldNotFetch
  | ltpNotAvailable
  | deviationExceeded (deviation tolerance : ℚ)
deriving DecidableEq, Repr

/-- Result dict of `check_price_availability`. -/
structure PriceCheck where
  available : Bool
  reason : Option PriceCheckReason
  current_price : Option ℚ
  signal_price : Option ℚ
  deviation_percent : Option ℚ
deriving DecidableEq, Repr

/-- `AutoTradeService.check_price_availability`
(`auto_trade_service.py:411-493`) with the broker `get_ltp` reply passed in
as status string plus data payload. -/
def checkPriceAvailability (ltpStatus : String) (ltpData : LtpData)
    (signalPrice : Option ℚ) (tolerancePercent : ℚ) : PriceCheck :=
  if ltpStatus ≠ "success" ∧ ltpData = .absent then
    { available := false, reason := some .couldNotFetch
      current_price := none, signal_price := none, deviation_percent := none }
  else
    let currentPrice : Option ℚ :=
      match ltpData with
      | .dict ltp last_price close => pyOrQ (pyOrQ ltp last_price) close
      | .num x => some x
      | .absent => none
    if ¬pyTruthyQ currentPrice then
      { available := false, reason := some .ltpNotAvailable
        current_price := none, signal_price := none, deviation_percent := none }
    else
      let current := currentPrice.getD 0
      if ¬pyTruthyQ signalPrice then
        { available := true, reason := none
          current_price := some current, signal_price := none
          deviation_percent := none }
      else
        let signal := signalPrice.getD 0
        let deviation := |signal - current| / current * 100
        if tolerancePercent < deviation then
          { available := false
            reason := some (.deviationExceeded deviation tolerancePercent)
            current_price := some current, signal_price := some signal
            deviation_percent := some deviation }
        else
          { available := true, reason := none
            current_price := some current, signal_price := some signal
            deviation_percent := some deviation }

/-! Calendar model for the expiry-string computation
(`symbol_resolver.py:388-454`).  A `datetime.now()` value is a Gregorian
date with an hour and Python weekday (Monday = 0 .. Sunday = 6). -/

/-- The parts of `datetime.now()` the resolver reads. -/
structure PyDateTime where
  year : Nat
  month : Nat
  day : Nat
  hour : Nat
  weekday : Nat
deriving DecidableEq, Repr

/-- Gregorian leap year. -/
def isLeapYear (y : Nat) : Bool :=
  y % 4 = 0 && (y % 100 ≠ 0 || y % 400 = 0)

/-- Days in a Gregorian month. -/
def daysInMonth (y m : Nat) : Nat :=
  if m = 2 then (if isLeapYear y then 29 else 28)
  else if m = 4 ∨ m = 6 ∨ m = 9 ∨ m = 11 then 30
  else 31

/-- Internal consistency of a `PyDateTime` (four-digit year so that
`str(year)[2:]` is the two-digit year, with room to add seven days). -/
def ValidDate (d : PyDateTime) : Prop :=
  1 ≤ d.month ∧ d.month ≤ 12 ∧ 1 ≤ d.day ∧ d.day ≤ daysInMonth d.year d.month ∧
    d.weekday < 7 ∧ d.hour < 24 ∧ 1000 ≤ d.year ∧ d.year ≤ 9998

instance (d : PyDateTime) : Decidable (ValidDate d) := by
  unfold ValidDate; infer_instance

/-- The following Gregorian day (`now + timedelta(days=1)`); the weekday
advances cyclically and the hour is unchanged. -/
def nextDay (d : PyDateTime) : PyDateTime :=
  let w := (d.weekday + 1) % 7
  if d.day < daysInMonth d.year d.month then
    { d with day := d.day + 1, weekday := w }
  else if d.month < 12 then
    { d with day := 1, month := d.month + 1, weekday := w }
  else
    { d with day := 1, month := 1, year := d.year + 1, weekday := w }

/-- `now + timedelta(days=n)`. -/
def addDays (n : Nat) (d : PyDateTime) : PyDateTime := nextDay^[n] d

/-- `MONTH_CODES` (`symbol_resolver.py:85-89`). -/
def monthCode : Nat → String
  | 1 => "JAN"
  | 2 => "FEB"
  | 3 => "MAR"
  | 4 => "APR"
  | 5 => "MAY"
  | 6 => "JUN"
  | 7 => "JUL"
  | 8 => "AUG"
  | 9 => "SEP"
  | 10 => "OCT"
  | 11 => "NOV"
  | 12 => "DEC"
  | _ => ""

/-- The month-name scan of the expiry helpers: the first month number in
1..12 whose code equals the upper-cased hint. -/
def monthNumOf (h : String) : Option Nat :=
  ((List.range 12).map (· + 1)).find? (fun m => monthCode m = pyUpper h)

/-- Python `str(n).zfill(2)` for `n < 100`. -/
def pad2 (n : Nat) : String :=
  if n < 10 then "0" ++ toString n else toString n

/-- Python `str(year)[2:]` for four-digit years: the two-digit year. -/
def yearYY (y : Nat) : String := pad2 (y % 100)

/-- Python `(3 - now.weekday()) % 7`, then the Thursday-after-cutoff bump
(`symbol_resolver.py:425-427`): days to add to reach the weekly expiry. -/
def weeklyExpiryOffset (d : PyDateTime) : Nat :=
  if ((3 - (d.weekday : ℤ)) % 7).toNat = 0 ∧ 15 ≤ d.hour then 7
  else ((3 - (d.weekday : ℤ)) % 7).toNat

/-- The expiry date the weekly default resolves to
(`symbol_resolver.py:424-429`). -/
def weeklyExpiryDate (d : PyDateTime) : PyDateTime :=
  addDays (weeklyExpiryOffset d) d

/-- The `DDMONYY` rendering of the weekly default expiry
(`symbol_resolver.py:430-434`). -/
def weeklyThursdayString (now : PyDateTime) : String :=
  let e := weeklyExpiryDate now
  pad2 e.day ++ monthCode e.month ++ yearYY e.year

/-- `SymbolResolver._get_weekly_expiry_string`
(`symbol_resolver.py:407-434`): a month-name hint yields the 2nd of that
month (with year rollover); otherwise the next-Thursday default. -/
def getWeeklyExpiryString (now : PyDateTime) (hint : Option String) : String :=
  match hint with
  | some h =>
    match monthNumOf h with
    | some m =>
      let y := if m < now.month then now.year + 1 else now.year
      "02" ++ monthCode m ++ yearYY y
    | none => weeklyThursdayString now
  | none => weeklyThursdayString now

/-- `SymbolResolver._get_monthly_expiry_string`
(`symbol_resolver.py:436-454`): `YYMON` of the current month, or of a
month-name hint with year rollover. -/
def getMonthlyExpiryString (now : PyDateTime) (hint : Option String) : String :=
  match hint with
  | some h =>
    match monthNumOf h with
    | some m =>
      let y := if m < now.month then now.year + 1 else now.year
      yearYY y ++ monthCode m
    | none => yearYY now.year ++ monthCode now.month
  | none => yearYY now.year ++ monthCode now.month

/-! Symbol resolver (`backend/app/services/symbol_resolver.py`). -/

/-- Regex `\w`: ASCII word character. -/
def isWordChar (c : Char) : Bool := c.isAlphanum || c = '_'

/-- Numeric value of a digit string. -/
def digitsToNat (l : List Char) : Nat :=
  l.foldl (fun n c => n * 10 + (c.toNat - '0'.toNat)) 0

/-- Drop trailing zero digits of a fractional part. -/
def stripTrailingZeros (l : List Char) : List Char :=
  (l.reverse.dropWhile (· = '0')).reverse

/-- The strike string built at `symbol_resolver.py:204` from the matched
digits: `str(int(strike))` for a whole strike, else `str(strike)` (decimal
strikes keep their significant fraction digits). -/
def strikeStrOf (intDigits : List Char) (frac : Option (List Char)) : String :=
  match frac with
  | none => toString (digitsToNat intDigits)
  | some f =>
    let f2 := stripTrailingZeros f
    if f2 = [] then toString (digitsToNat intDigits)
    else toString (digitsToNat intDigits) ++ "." ++ String.mk f2

/-- Groups of the option regex
`^(\w+)\s*(\d+(?:\.\d+)?)\s*(CE|PE|CALL|PUT)(?:\s+(\w+))?$`
(`symbol_resolver.py:150`). -/
structure OptionMatch where
  g1 : String
  strikeInt : List Char
  strikeFrac : Option (List Char)
  optType : String
  g4 : Option String
deriving DecidableEq, Repr

/-- Match of the trailing `(?:\s+(\w+))?$` common to both F&O regexes:
either the end of input, or at least one space followed by a word that
ends the input. -/
def matchOptionTail : List Char → Option (Option String)
  | [] => some none
  | c :: t =>
    if isPySpace c then
      let t1 := (c :: t).dropWhile isPySpace
      let g4 := t1.takeWhile isWordChar
      let t2 := t1.dropWhile isWordChar
      if g4 ≠ [] ∧ t2 = [] then some (some (String.mk g4)) else none
    else none

/-- Match of `(CE|PE|CALL|PUT)` (case-insensitive, alternatives tried in
regex order) followed by the tail. -/
def matchOptTypeAndTail (l : List Char) : Option (String × Option String) :=
  let tryAlt := fun (p : String) =>
    if p.data.isPrefixOf (l.map Char.toUpper) then
      (matchOptionTail (l.drop p.length)).map (fun g4 => (p, g4))
    else none
  tryAlt "CE" <|> tryAlt "PE" <|> tryAlt "CALL" <|> tryAlt "PUT"

/-- Match of `\s*(\d+(?:\.\d+)?)\s*(CE|PE|CALL|PUT)(?:\s+(\w+))?$` after
the first group.  The digit runs are maximal-munch, which agrees with the
greedy regex here because shorter digit runs leave a digit where a
non-digit is required. -/
def matchOptionAfterG1 (rest : List Char) :
    Option (List Char × Option (List Char) × String × Option String) :=
  let r1 := rest.dropWhile isPySpace
  let d1 := r1.takeWhile Char.isDigit
  if d1 = [] then none
  else
    let r2 := r1.drop d1.length
    let fracSplit : Option (List Char) × List Char :=
      match r2 with
      | '.' :: r2t =>
        let f := r2t.takeWhile Char.isDigit
        if f = [] then (none, r2) else (some f, r2t.drop f.length)
      | _ => (none, r2)
    let r4 := fracSplit.2.dropWhile isPySpace
    (matchOptTypeAndTail r4).map (fun p => (d1, fracSplit.1, p.1, p.2))

/-- Greedy `^(\w+)` with backtracking: the longest word prefix of length
at most `n` whose remainder matches the rest of the option pattern. -/
def matchOptionG1 (s : List Char) : Nat → Option OptionMatch
  | 0 => none
  | n + 1 =>
    match matchOptionAfterG1 (s.drop (n + 1)) with
    | some (d1, frac, ot, g4) =>
      some { g1 := String.mk (s.take (n + 1)), strikeInt := d1
             strikeFrac := frac, optType := ot, g4 := g4 }
    | none => matchOptionG1 s n

/-- Full match of the option regex of `_parse_fno_symbol`
(`symbol_resolver.py:150`). -/
def matchOptionPattern (s : List Char) : Option OptionMatch :=
  matchOptionG1 s (s.takeWhile isWordChar).length

/-- Full match of the future regex `^(\w+)\s+FUT(?:URE)?(?:\s+(\w+))?$`
(`symbol_resolver.py:152`); `URE` is consumed greedily with backtracking. -/
def matchFuturePattern (s : List Char) : Option (String × Option String) :=
  let g1 := s.takeWhile isWordChar
  if g1 = [] then none
  else
    let r1 := s.drop g1.length
    let sp := r1.takeWhile isPySpace
    if sp = [] then none
    else
      let r2 := r1.drop sp.length
      let up := r2.map Char.toUpper
      if ("FUT".data).isPrefixOf up then
        match (if ("FUTURE".data).isPrefixOf up then
            matchOptionTail (r2.drop 6) else none) with
        | some g4 => some (String.mk g1, g4)
        | none =>
          (matchOptionTail (r2.drop 3)).map (fun g4 => (String.mk g1, g4))
      else none

/-- `INDEX_OPTIONS` (`symbol_resolver.py:74-81`): the derivative exchange
of the known index underlyings. -/
def indexOptionExchange (sym : String) : Option String :=
  if sym = "NIFTY" ∨ sym = "BANKNIFTY" ∨ sym = "FINNIFTY" ∨
      sym = "MIDCPNIFTY" then some "NFO"
  else if sym = "SENSEX" ∨ sym = "BANKEX" then some "BFO"
  else none

/-- The dict `_parse_fno_symbol` returns (`symbol_resolver.py:168-189`).
For a future the Python dict carries no strike, option-type or exchange
key; `_resolve_fno_symbol` reads the exchange with default `"NFO"`, which
is stored here directly, and the strike and option-type fields are unused
(empty).  `strikeStr` is the strike string `_resolve_fno_symbol` derives at
line 204. -/
structure FnoInfo where
  symbol : String
  strikeStr : String
  optionType : String
  expiryHint : Option String
  isOption : Bool
  isFuture : Bool
  isIndex : Bool
  exchange : String
deriving DecidableEq, Repr

/-- `SymbolResolver._parse_fno_symbol` (`symbol_resolver.py:138-191`). -/
def parseFnoSymbol (raw : String) : Option FnoInfo :=
  match matchOptionPattern raw.data with
  | some m =>
    let symbol := pyUpper m.g1
    let ot0 := m.optType
    let optionType := if ot0 = "CALL" then "CE"
      else if ot0 = "PUT" then "PE" else ot0
    some { symbol := symbol
           strikeStr := strikeStrOf m.strikeInt m.strikeFrac
           optionType := optionType
           expiryHint := m.g4.map pyUpper
           isOption := true, isFuture := false
           isIndex := (indexOptionExchange symbol).isSome
           exchange := (indexOptionExchange symbol).getD "NFO" }
  | none =>
    match matchFuturePattern raw.data with
    | some (g1, g4) =>
      let symbol := pyUpper g1
      some { symbol := symbol
             strikeStr := "", optionType := ""
             expiryHint := g4.map pyUpper
             isOption := false, isFuture := true
             isIndex := (indexOptionExchange symbol).isSome
             exchange := "NFO" }
    | none => none

/-- `SymbolResolver._search_fno_options` (`symbol_resolver.py:259-305`):
search `SYMBOL+STRIKE+OPTIONTYPE`, fall back to `SYMBOL` alone, filter for
all three substrings, sort by symbol, then prefer entries containing the
expiry hint. -/
def searchFnoOptions (st : IndexState) (symbol strike optionType : String)
    (expiryHint : Option String) (exchange : String) : List SearchResult :=
  let results := searchSymbol st (symbol ++ strike ++ optionType)
    (some exchange) 20
  let results := if results = [] then searchSymbol st symbol (some exchange) 50
    else results
  let matching := results.filter (fun r =>
    strContains r.symbol strike && strContains r.symbol optionType &&
      strContains r.symbol symbol)
  let matching := pySort (fun a b => strLe a.symbol b.symbol) matching
  match expiryHint with
  | some h =>
    if matching ≠ [] then
      let filtered := matching.filter (fun m =>
        strContains (pyUpper m.symbol) (pyUpper h))
      if filtered ≠ [] then filtered else matching
    else matching
  | none => matching

/-- `SymbolResolver._resolve_fno_symbol` (`symbol_resolver.py:193-257`). -/
def resolveFnoSymbol (master : Option IndexState) (now : PyDateTime)
    (fno : FnoInfo) (original : String) : ResolveResult :=
  if fno.isOption then
    let searchResults :=
      match master with
      | some st => searchFnoOptions st fno.symbol fno.strikeStr fno.optionType
          fno.expiryHint fno.exchange
      | none => []
    match searchResults with
    | best :: _ =>
      { success := true, original := original
        resolved_symbol := best.symbol, token := some best.token
        exchange := best.exchange, instrument_type := "OPTION"
        message := "Found match: " ++ best.symbol }
    | [] =>
      let expiry := getWeeklyExpiryString now fno.expiryHint
      let resolved := fno.symbol ++ expiry ++ fno.strikeStr ++ fno.optionType
      { success := true, original := original
        resolved_symbol := resolved, token := none
        exchange := fno.exchange, instrument_type := "OPTION"
        message := "Constructed symbol (unvalidated): " ++ resolved }
  else
    let expiry := getMonthlyExpiryString now fno.expiryHint
    let resolved := fno.symbol ++ expiry ++ "FUT"
    match (match master with
        | some st => getToken st resolved fno.exchange
        | none => none) with
    | some token =>
      { success := true, original := original
        resolved_symbol := resolved, token := some token
        exchange := fno.exchange, instrument_type := "FUTURE"
        message := "Resolved to " ++ resolved }
    | none =>
      { success := true, original := original
        resolved_symbol := resolved, token := none
        exchange := fno.exchange, instrument_type := "FUTURE"
        message := "Constructed symbol (unvalidated): " ++ resolved }

/-- `STOCK_ALIASES` (`symbol_resolver.py:25-70`). -/
def stockAliases : List (String × List String) := [
  ("RELIANCE", ["RIL", "RELIANCE INDUSTRIES", "RELIANCE IND"]),
  ("TATASTEEL", ["TATA STEEL", "TATA STEEL LTD"]),
  ("TATAMOTORS", ["TATA MOTORS", "TATAMOT"]),
  ("HDFCBANK", ["HDFC BANK", "HDFC"]),
  ("ICICIBANK", ["ICICI BANK", "ICICI"]),
  ("SBIN", ["SBI", "STATE BANK", "STATE BANK OF INDIA"]),
  ("INFY", ["INFOSYS", "INFOSYS LTD"]),
  ("TCS", ["TATA CONSULTANCY", "TATA CONSULTANCY SERVICES"]),
  ("WIPRO", ["WIPRO LTD"]),
  ("BHARTIARTL", ["AIRTEL", "BHARTI AIRTEL", "BHARTI"]),
  ("AXISBANK", ["AXIS BANK", "AXIS"]),
  ("KOTAKBANK", ["KOTAK", "KOTAK MAHINDRA", "KOTAK BANK"]),
  ("HINDUNILVR", ["HUL", "HINDUSTAN UNILEVER"]),
  ("MARUTI", ["MARUTI SUZUKI", "MSIL"]),
  ("BAJFINANCE", ["BAJAJ FINANCE", "BAJ FINANCE"]),
  ("BAJAJFINSV", ["BAJAJ FINSERV"]),
  ("ASIANPAINT", ["ASIAN PAINTS"]),
  ("ULTRACEMCO", ["ULTRATECH", "ULTRATECH CEMENT"]),
  ("SUNPHARMA", ["SUN PHARMA"]),
  ("DRREDDY", ["DR REDDY", "DR REDDYS"]),
  ("CIPLA", ["CIPLA LTD"]),
  ("ONGC", ["OIL AND NATURAL GAS", "OIL INDIA"]),
  ("NTPC", ["NTPC LTD"]),
  ("POWERGRID", ["POWER GRID"]),
  ("COALINDIA", ["COAL INDIA"]),
  ("JSWSTEEL", ["JSW STEEL"]),
  ("HINDALCO", ["HINDALCO INDUSTRIES"]),
  ("ADANIENT", ["ADANI ENT", "ADANI ENTERPRISES"]),
  ("ADANIPORTS", ["ADANI PORTS"]),
  ("LT", ["L&T", "LARSEN", "LARSEN & TOUBRO", "LARSEN AND TOUBRO"]),
  ("TECHM", ["TECH MAHINDRA"]),
  ("HCLTECH", ["HCL TECH", "HCL TECHNOLOGIES"]),
  ("M&M", ["MAHINDRA", "M AND M", "MAHINDRA AND MAHINDRA"]),
  ("EICHERMOT", ["EICHER", "EICHER MOTORS"]),
  ("HEROMOTOCO", ["HERO", "HERO MOTOCORP"]),
  ("BAJAJ-AUTO", ["BAJAJ AUTO", "BAJAJAUTO"]),
  ("DIVISLAB", ["DIVIS LAB", "DIVIS LABORATORIES"]),
  ("GRASIM", ["GRASIM INDUSTRIES"]),
  ("BRITANNIA", ["BRITANNIA INDUSTRIES"]),
  ("NESTLEIND", ["NESTLE", "NESTLE INDIA"]),
  ("TITAN", ["TITAN COMPANY"]),
  ("ITC", ["ITC LTD"])]

/-- Python `d[k] = v` on a string-to-string dict. -/
def strDictSet (d : List (String × String)) (k v : String) :
    List (String × String) :=
  if d.any (fun p => p.1 == k) then
    d.map (fun p => if p.1 == k then (k, v) else p)
  else d ++ [(k, v)]

/-- Python `d.get(k, default)` on a string-to-string dict. -/
def strDictGetD (d : List (String × String)) (k default : String) : String :=
  ((d.find? (fun p => p.1 == k)).map (·.2)).getD default

/-- `SymbolResolver._build_reverse_aliases` (`symbol_resolver.py:97-103`). -/
def reverseAliases : List (String × String) :=
  stockAliases.foldl
    (fun acc p => p.2.foldl (fun a al => strDictSet a (pyUpper al) p.1) acc) []

/-- `SymbolResolver._resolve_equity_symbol` (`symbol_resolver.py:307-386`). -/
def resolveEquitySymbol (master : Option IndexState) (rawSymbol : String)
    (exchange : String) : ResolveResult :=
  let canonical := strDictGetD reverseAliases rawSymbol rawSymbol
  let candidates :=
    if exchange = "NSE" then
      [canonical ++ "-EQ", canonical, rawSymbol ++ "-EQ", rawSymbol]
    else [canonical, rawSymbol]
  let fallback : ResolveResult :=
    { success := false, original := rawSymbol
      resolved_symbol := if exchange = "NSE" then canonical ++ "-EQ"
        else canonical
      token := none, exchange := exchange, instrument_type := "EQUITY"
      message := "Could not validate symbol: " ++
        (if exchange = "NSE" then canonical ++ "-EQ" else canonical) }
  match master with
  | none => fallback
  | some st =>
    match candidates.findSome? (fun c =>
        (getToken st c exchange).map (fun tok => (c, tok))) with
    | some (c, tok) =>
      { success := true, original := rawSymbol
        resolved_symbol := c, token := some tok
        exchange := exchange, instrument_type := "EQUITY"
        message := "Resolved to " ++ c }
    | none =>
      match searchSymbol st canonical (some exchange) 10 with
      | [] => fallback
      | best :: rest =>
        match (best :: rest).find? (fun r =>
            pyUpper r.name = canonical ∨
              pyUpper r.symbol = canonical ++ "-EQ") with
        | some r =>
          { success := true, original := rawSymbol
            resolved_symbol := r.symbol, token := some r.token
            exchange := r.exchange, instrument_type := "EQUITY"
            message := "Found match: " ++ r.symbol }
        | none =>
          { success := true, original := rawSymbol
            resolved_symbol := best.symbol, token := some best.token
            exchange := best.exchange, instrument_type := "EQUITY"
            message := "Best match: " ++ best.symbol }

/-- `SymbolResolver.resolve_symbol` (`symbol_resolver.py:105-136`):
strip and upper-case, try the F&O grammars, else resolve as an equity. -/
def resolveSymbol (master : Option IndexState) (now : PyDateTime)
    (rawSymbol : String) (exchange : String) : ResolveResult :=
  let raw := pyUpper (pyStrip rawSymbol)
  match parseFnoSymbol raw with
  | some fno => resolveFnoSymbol master now fno raw
  | none => resolveEquitySymbol master raw exchange

/-! Sample data used by concrete counterexamples and witnesses. -/

/-- A sample NSE equity instrument (symbol RELIANCE-EQ, token 2885). -/
def relianceInst : Instrument :=
  { symbol := "RELIANCE-EQ", name := "RELIANCE", exch_seg := "NSE"
    token := "2885", instrumenttype := "" }

/-- A second sample NSE equity instrument. -/
def tcsInst : Instrument :=
  { symbol := "TCS-EQ", name := "TCS", exch_seg := "NSE"
    token := "11536", instrumenttype := "" }

/-- A freshly created trade row, as `create_trade` builds it. -/
def sampleTrade : Trade :=
  { symbol := "XYZ", action := "BUY", quantity := 10, entry_price := none
    target_price := none, stop_loss := none, order_type := "MARKET"
    exchange := "NSE", product_type := "INTRADAY", status := .PENDING
    order_id := none, broker_status := none, broker_rejection_reason := none
    filled_quantity := none, average_price := none, execution_price := none
    execution_time := none, last_status_check := none, notes := none
    error_message := none }

/-- A trade that reached the terminal status EXECUTED. -/
def sampleExecutedTrade : Trade :=
  { sampleTrade with status := .EXECUTED, order_id := some "OID1" }

/-- A trade sitting in SUBMITTED with a broker order id. -/
def sampleSubmittedTrade : Trade :=
  { sampleTrade with status := .SUBMITTED, order_id := some "OID1" }

/-- A resolver output with `success = false` (unvalidated equity). -/
def failedResolveResult : ResolveResult :=
  { success := false, original := "XYZ", resolved_symbol := "XYZ-EQ"
    token := none, exchange := "NSE", instrument_type := "EQUITY"
    message := "Could not validate symbol: XYZ-EQ" }

/-! Theorems.  Each claim of the specification is settled below; helper
lemmas precede the claim theorems that use them. -/

/-- C1 (counterexample): the claim that no operation ever moves a trade out
of a terminal status fails.  The per-trade refresh sends an EXECUTED trade
back to OPEN when the broker reports an open-style status (its OPEN branch
has no terminal guard), a strictly backward move out of a terminal status;
and the reconciliation sweep, whose filter includes EXECUTED trades, moves
an EXECUTED trade to REJECTED. -/
theorem refresh_can_revert_executed_trade :
    isTerminal sampleExecutedTrade.status = true ∧
    (refreshApplyStatus 0 sampleExecutedTrade
      { broker_status := "open", internal_status := "OPEN"
        filled_quantity := some 0, average_price := some 0
        rejection_reason := none }).status = .OPEN ∧
    statusRank (refreshApplyStatus 0 sampleExecutedTrade
      { broker_status := "open", internal_status := "OPEN"
        filled_quantity := some 0, average_price := some 0
        rejection_reason := none }).status <
      statusRank sampleExecutedTrade.status ∧
    syncEligible sampleExecutedTrade = true ∧
    (syncApplyOrder 0 sampleExecutedTrade
      { order_id := "OID1", broker_status := "rejected"
        internal_status := "REJECTED", filled_quantity := some 0
        average_price := some 0
        rejection_reason := some "margin" }).status = .REJECTED := by decide

/-- C1 (amended): for a trade in a non-terminal status (PENDING, SUBMITTED
or OPEN) every status update — sweep, per-trade refresh, and the
post-placement update of initial execution — moves the status forward along
PENDING < SUBMITTED < OPEN < terminal, and the sweep never selects
REJECTED, CANCELLED or FAILED trades; EXECUTED, however, is not protected
(see the counterexample). -/
theorem trade_status_updates_forward_on_nonterminal (now : Nat) (t : Trade)
    (bo : BrokerOrder) (os : OrderStatusResult)
    (h : t.status = .PENDING ∨ t.status = .SUBMITTED ∨ t.status = .OPEN) :
    statusRank t.status ≤ statusRank (syncApplyOrder now t bo).status ∧
    statusRank t.status ≤ statusRank (refreshApplyStatus now t os).status ∧
    statusRank t.status ≤ statusRank (execApplyStatus now t os).status ∧
    ∀ u : Trade,
      (u.status = .REJECTED ∨ u.status = .CANCELLED ∨ u.status = .FAILED) →
      syncEligible u = false := by
  refine ⟨?_, ?_, ?_, ?_⟩
  · unfold syncApplyOrder
    split_ifs <;> rcases h with h | h | h <;> simp [statusRank, h]
  · unfold refreshApplyStatus
    split_ifs <;> rcases h with h | h | h <;> simp [statusRank, h]
  · unfold execApplyStatus
    split_ifs <;> rcases h with h | h | h <;> simp [statusRank, h]
  · intro u hu
    rcases hu with h' | h' | h' <;> simp [syncEligible, h']

/-- C1 (witness): the amended theorem applied to a SUBMITTED trade updated
by the sweep with an executed broker order. -/
theorem trade_status_updates_forward_on_nonterminal_witness :
    sampleSubmittedTrade.status = .SUBMITTED ∧
    statusRank sampleSubmittedTrade.status ≤
      statusRank (syncApplyOrder 0 sampleSubmittedTrade
        { order_id := "OID1", broker_status := "complete"
          internal_status := "EXECUTED", filled_quantity := some 10
          average_price := some 5, rejection_reason := none }).status :=
  ⟨rfl, (trade_status_updates_forward_on_nonterminal 0 sampleSubmittedTrade
    { order_id := "OID1", broker_status := "complete"
      internal_status := "EXECUTED", filled_quantity := some 10
      average_price := some 5, rejection_reason := none }
    { broker_status := "complete", internal_status := "EXECUTED"
      filled_quantity := some 10, average_price := some 5
      rejection_reason := none } (Or.inr (Or.inl rfl))).1⟩

/-- C2 (counterexample): the translation lower-cases the vendor string
first, so the vendor status "Complete" is also translated to EXECUTED even
though it is not the string "complete" — the claimed "exactly when the
vendor status is complete" fails as stated. -/
theorem internal_status_ignores_vendor_case :
    internalStatusOf "Complete" = "EXECUTED" ∧ "Complete" ≠ "complete" := by
  decide

/-- C2 (amended): the translation yields EXECUTED exactly when the
lower-cased vendor status is "complete", REJECTED exactly for "rejected",
CANCELLED exactly for "cancelled", OPEN exactly for the four open/pending
style statuses, and PENDING otherwise — so at most these five internal
values are ever produced. -/
theorem internal_status_characterization (v : String) :
    (internalStatusOf v = "EXECUTED" ↔ pyLower v = "complete") ∧
    (internalStatusOf v = "REJECTED" ↔ pyLower v = "rejected") ∧
    (internalStatusOf v = "CANCELLED" ↔ pyLower v = "cancelled") ∧
    (internalStatusOf v = "OPEN" ↔
      (pyLower v = "open" ∨ pyLower v = "pending" ∨
       pyLower v = "trigger pending" ∨
       pyLower v = "after market order req received")) ∧
    internalStatusOf v ∈
      ["EXECUTED", "REJECTED", "CANCELLED", "OPEN", "PENDING"] := by
  dsimp only [internalStatusOf]
  split_ifs with h1 h2 h3 h4 <;> simp_all

/-- C3 (counterexample): `search_symbols` and `refresh_instruments` carry
no logged-in guard: on a logged-out backend the search still returns
instrument data and the forced instrument reload still succeeds, instead of
the claimed NotLoggedIn error. -/
theorem search_symbols_skips_login_guard :
    initNoSession.isLoggedIn = false ∧
    searchSymbols initNoSession (buildIndex [relianceInst]) "RELIANCE" none =
      [{ symbol := "RELIANCE-EQ", name := "RELIANCE", token := "2885"
         exchange := "NSE", instrument_type := "" }] ∧
    (refreshInstruments initNoSession
      { index := emptyIndex, loaded := false, loading := false }
      (some [relianceInst])).2 = true := by decide

/-- C3 (amended): the nine broker-session capabilities (place_order,
cancel_order, get_order_status, get_all_order_statuses, get_positions,
get_holdings, get_order_book, get_funds, get_ltp) all fail fast with
status error / "Not logged in" on a logged-out backend and do not invoke
the vendor API; search_symbols and refresh_instruments are the exceptions
(see the counterexample). -/
theorem not_logged_in_fails_fast (s : AngelState) (hs : s.isLoggedIn = false)
    (profileOk : Bool) (vendor : PlaceResult)
    (vob : ApiResult (List VendorOrder)) (vu : ApiResult Unit)
    (vp : ApiResult VendorPayload) (oid : String) :
    placeOrder s profileOk vendor = ((.error "Not logged in", s), false) ∧
    cancelOrder s vu = (.error "Not logged in", false) ∧
    getOrderStatus s vob oid = (.error "Not logged in", false) ∧
    getAllOrderStatuses s vob = (.error "Not logged in", false) ∧
    getPositions s vp = (.error "Not logged in", false) ∧
    getHoldings s vp = (.error "Not logged in", false) ∧
    getOrderBook s vp = (.error "Not logged in", false) ∧
    getFunds s vp = (.error "Not logged in", false) ∧
    getLtp s vp = (.error "Not logged in", false) := by
  unfold placeOrder cancelOrder getOrderStatus getAllOrderStatuses getPositions
    getHoldings getOrderBook getFunds getLtp
  simp [hs]

/-- C3 (witness): the fail-fast theorem applied to the freshly constructed
logged-out backend state. -/
theorem not_logged_in_fails_fast_witness :
    initNoSession.isLoggedIn = false ∧
    getPositions initNoSession (.ok { raw := "positions" }) =
      (.error "Not logged in", false) :=
  ⟨rfl, (not_logged_in_fails_fast initNoSession rfl true (.success "O1")
    (.ok []) (.ok ()) (.ok { raw := "positions" }) "O1").2.2.2.2.1⟩

/-- C4 (counterexample): a reader between the in-place clear and the end of
the rebuild observes neither the old nor the new complete index.  With an
old index containing RELIANCE and a new instrument list that also contains
it, the intermediate state (list position 1) is the empty index, on which
`get_token` misses although both the old and the new complete index resolve
the symbol. -/
theorem build_index_clears_before_rebuild :
    (buildIndexStates (buildIndex [relianceInst])
      [relianceInst, tcsInst]).get? 1 = some emptyIndex ∧
    getToken emptyIndex "RELIANCE-EQ" "NSE" = none ∧
    getToken (buildIndex [relianceInst]) "RELIANCE-EQ" "NSE" = some "2885" ∧
    getToken (buildIndex [relianceInst, tcsInst]) "RELIANCE-EQ" "NSE" =
      some "2885" ∧
    emptyIndex ≠ buildIndex [relianceInst] ∧
    emptyIndex ≠ buildIndex [relianceInst, tcsInst] := by decide

/-- Helper for C4: the last state of the in-place rebuild is the fully
rebuilt index. -/
theorem buildStatesFrom_getLast (l : List Instrument) :
    ∀ acc : IndexState,
      (buildStatesFrom acc l).getLast? = some (l.foldl buildStep acc) := by
  induction l with
  | nil => intro acc; rfl
  | cons i rest ih =>
    intro acc
    obtain ⟨x, xs, hx⟩ :
        ∃ x xs, buildStatesFrom (buildStep acc i) rest = x :: xs := by
      cases rest <;> exact ⟨_, _, rfl⟩
    rw [buildStatesFrom, hx, List.getLast?_cons_cons, ← hx, ih]
    simp

/-- C4 (amended): `_build_index` rebuilds in place, not atomically: the
reader-visible state sequence starts with the old index, immediately drops
to the empty index (on which every `get_token` lookup returns null), and
only its final state equals the fully rebuilt index. -/
theorem build_index_states_characterization (old : IndexState)
    (insts : List Instrument) :
    (buildIndexStates old insts).get? 0 = some old ∧
    (buildIndexStates old insts).get? 1 = some emptyIndex ∧
    (buildIndexStates old insts).getLast? = some (buildIndex insts) ∧
    ∀ sym exch, getToken emptyIndex sym exch = none := by
  refine ⟨rfl, ?_, ?_, ?_⟩
  · cases insts <;> rfl
  · obtain ⟨x, xs, hx⟩ :
        ∃ x xs, buildStatesFrom emptyIndex insts = x :: xs := by
      cases insts <;> exact ⟨_, _, rfl⟩
    rw [buildIndexStates, hx, List.getLast?_cons_cons, ← hx,
      buildStatesFrom_getLast insts emptyIndex]
    rfl
  · intro sym exch
    simp [getToken, dictGet, emptyIndex]

/-- C5 (counterexample): when a settings row exists but its active-broker
selector is unset (None), `get_active_broker` returns no broker at all —
not the first-registered default, although a default exists. -/
theorem active_broker_unset_selector_returns_none :
    (registerBroker (registerBroker emptyRegistry "angel_one")
      "zerodha").defaultBroker = some "angel_one" ∧
    getActiveBroker
      (registerBroker (registerBroker emptyRegistry "angel_one") "zerodha")
      (some { active_broker_type := none }) = none := by decide

/-- Helper for C5: registration preserves an already-set default broker. -/
theorem registerFold_default_preserved (l : List String) :
    ∀ (r : RegistryState) (d : String), r.defaultBroker = some d →
      (l.foldl registerBroker r).defaultBroker = some d := by
  induction l with
  | nil => intro r d h; simpa using h
  | cons t rest ih =>
    intro r d h
    simp only [List.foldl_cons]
    exact ih _ d (by simp [registerBroker, h])

/-- Helper for C5: registration never removes a registered type. -/
theorem registerFold_contains_preserved (l : List String) :
    ∀ (r : RegistryState) (t : String), r.brokers.contains t = true →
      (l.foldl registerBroker r).brokers.contains t = true := by
  induction l with
  | nil => intro r t h; simpa using h
  | cons u rest ih =>
    intro r t h
    simp only [List.foldl_cons]
    refine ih _ t ?_
    simp only [registerBroker]
    split_ifs with hc
    · exact h
    · simp [List.elem_iff] at h ⊢
      exact Or.inl h

/-- Helper for C5: `register` makes its argument registered. -/
theorem register_contains_self (r : RegistryState) (t : String) :
    (registerBroker r t).brokers.contains t = true := by
  simp only [registerBroker]
  split_ifs with hc
  · exact hc
  · simp [List.elem_iff]

/-- C5 (amended): with brokers registered in order, the default is the
first-registered type; `get_active_broker` returns that default when NO
settings row exists, returns the selected backend when the selector is set
to a registered type, but returns no broker when a settings row exists with
the selector unset. -/
theorem get_active_broker_characterization (l : List String) (t d : String)
    (row : SettingsRow) (hd : l.head? = some d)
    (ht : (l.foldl registerBroker emptyRegistry).brokers.contains t = true) :
    (l.foldl registerBroker emptyRegistry).defaultBroker = some d ∧
    getActiveBroker (l.foldl registerBroker emptyRegistry) none = some d ∧
    (row.active_broker_type = none →
      getActiveBroker (l.foldl registerBroker emptyRegistry) (some row) =
        none) ∧
    (row.active_broker_type = some t → t ≠ "" →
      getActiveBroker (l.foldl registerBroker emptyRegistry) (some row) =
        some t) := by
  cases l with
  | nil => simp at hd
  | cons a rest =>
    simp only [List.head?_cons, Option.some.injEq] at hd
    subst hd
    have hdef : ((a :: rest).foldl registerBroker emptyRegistry).defaultBroker =
        some a := by
      simp only [List.foldl_cons]
      exact registerFold_default_preserved rest _ a
        (by simp [registerBroker, emptyRegistry])
    have hcontains : ((a :: rest).foldl registerBroker
        emptyRegistry).brokers.contains a = true := by
      simp only [List.foldl_cons]
      exact registerFold_contains_preserved rest _ a
        (register_contains_self emptyRegistry a)
    simp only [List.elem_iff] at hcontains ht
    refine ⟨hdef, ?_, ?_, ?_⟩
    · simp only [List.foldl_cons] at hdef hcontains ⊢
      simp [getActiveBroker, hdef, createBroker, hcontains]
    · intro hrow; simp [getActiveBroker, hrow]
    · intro hrow hne
      simp only [List.foldl_cons] at ht ⊢
      simp [getActiveBroker, hrow, hne, createBroker, ht]

/-- C5 (witness): a two-broker registry resolved with no settings row and
with the selector set. -/
theorem get_active_broker_characterization_witness :
    (["angel_one", "zerodha"] : List String).head? = some "angel_one" ∧
    getActiveBroker (["angel_one", "zerodha"].foldl registerBroker
      emptyRegistry) none = some "angel_one" ∧
    getActiveBroker (["angel_one", "zerodha"].foldl registerBroker
      emptyRegistry) (some { active_broker_type := some "zerodha" }) =
      some "zerodha" := by
  refine ⟨by decide, ?_, ?_⟩
  · exact (get_active_broker_characterization ["angel_one", "zerodha"]
      "zerodha" "angel_one" { active_broker_type := some "zerodha" }
      (by decide) (by decide)).2.1
  · exact (get_active_broker_characterization ["angel_one", "zerodha"]
      "zerodha" "angel_one" { active_broker_type := some "zerodha" }
      (by decide) (by decide)).2.2.2 rfl (by decide)

/-- Helper for C6: the weekday after one calendar day. -/
theorem nextDay_weekday (d : PyDateTime) :
    (nextDay d).weekday = (d.weekday + 1) % 7 := by
  unfold nextDay
  split_ifs <;> rfl

/-- Helper for C6: the weekday after `n` calendar days. -/
theorem addDays_weekday (d : PyDateTime) (hw : d.weekday < 7) (n : Nat) :
    (addDays n d).weekday = (d.weekday + n) % 7 := by
  induction n with
  | zero => simp [addDays, Nat.mod_eq_of_lt hw]
  | succ n ih =>
    have hstep : addDays (n + 1) d = nextDay (addDays n d) :=
      Function.iterate_succ_apply' nextDay n d
    rw [hstep, nextDay_weekday, ih]
    omega

/-- Helper for C6: a calendar step keeps the month in 1..12 and the day in
1..31. -/
theorem nextDay_bounds (d : PyDateTime) (h1 : 1 ≤ d.month)
    (h2 : d.month ≤ 12) :
    1 ≤ (nextDay d).month ∧ (nextDay d).month ≤ 12 ∧
      1 ≤ (nextDay d).day ∧ (nextDay d).day ≤ 31 := by
  have hdm : daysInMonth d.year d.month ≤ 31 := by
    unfold daysInMonth
    split_ifs <;> omega
  unfold nextDay
  split_ifs <;> simp_all <;> omega

/-- Helper for C6: adding days keeps the month in 1..12 and the day in
1..31. -/
theorem addDays_bounds (d : PyDateTime) (h1 : 1 ≤ d.month) (h2 : d.month ≤ 12)
    (h3 : 1 ≤ d.day) (h4 : d.day ≤ 31) (n : Nat) :
    1 ≤ (addDays n d).month ∧ (addDays n d).month ≤ 12 ∧
      1 ≤ (addDays n d).day ∧ (addDays n d).day ≤ 31 := by
  induction n with
  | zero => exact ⟨h1, h2, h3, h4⟩
  | succ n ih =>
    have hstep : addDays (n + 1) d = nextDay (addDays n d) :=
      Function.iterate_succ_apply' nextDay n d
    rw [hstep]
    have h := nextDay_bounds (addDays n d) ih.1 ih.2.1
    exact ⟨h.1, h.2.1, h.2.2.1, h.2.2.2⟩

/-- Helper for C6: the weekly-expiry offset is at most seven days. -/
theorem weeklyExpiryOffset_le (d : PyDateTime) : weeklyExpiryOffset d ≤ 7 := by
  unfold weeklyExpiryOffset
  split_ifs <;> omega

/-- Helper for C6: the weekly default expiry falls on a Thursday
(Python weekday 3). -/
theorem weeklyExpiryDate_thursday (d : PyDateTime) (hw : d.weekday < 7) :
    (weeklyExpiryDate d).weekday = 3 := by
  unfold weeklyExpiryDate
  rw [addDays_weekday d hw]
  unfold weeklyExpiryOffset
  split_ifs <;> omega

/-- Helper for C6: on a Thursday at or after the 15:00 cutoff the offset is
a full week. -/
theorem weeklyExpiryOffset_cutoff (d : PyDateTime)
    (h : d.weekday = 3 ∧ 15 ≤ d.hour) : weeklyExpiryOffset d = 7 := by
  unfold weeklyExpiryOffset
  split_ifs with hc
  · rfl
  · rw [h.1] at hc
    omega

/-- Helper for C6: away from the cutoff case, the offset reaches the
earliest Thursday — no earlier day is a Thursday. -/
theorem weeklyExpiryOffset_minimal (d : PyDateTime) (hw : d.weekday < 7)
    (h : ¬(d.weekday = 3 ∧ 15 ≤ d.hour)) :
    ∀ j, j < weeklyExpiryOffset d → (addDays j d).weekday ≠ 3 := by
  intro j hj
  rw [addDays_weekday d hw]
  unfold weeklyExpiryOffset at hj
  split_ifs at hj with hc <;> omega

/-- Helper for C6: `str(n).zfill(2)` of a number below 100 is two digit
characters. -/
theorem pad2_shape (n : Nat) (hn : n < 100) :
    (pad2 n).length = 2 ∧ (pad2 n).data.all Char.isDigit = true := by
  revert hn
  revert n
  decide

/-- Helper for C6: the month code of a month in 1..12 is one of the twelve
three-letter codes. -/
theorem monthCode_mem (m : Nat) (h1 : 1 ≤ m) (h2 : m ≤ 12) :
    monthCode m ∈ (["JAN", "FEB", "MAR", "APR", "MAY", "JUN", "JUL", "AUG",
      "SEP", "OCT", "NOV", "DEC"] : List String) := by
  interval_cases m <;> decide

/-- C6: resolving "NIFTY 25000 CE" when the index yields no matching option
entry returns success with a null token, the resolved symbol
NIFTY + DDMMMYY + 25000CE (two digit day, three upper-case letter month
code, two digit year) and an unvalidated-construction message, where the
encoded expiry date is the next Thursday from the current time — or
Thursday plus seven days when it is already a Thursday at or past the
15:00 cutoff. -/
theorem resolve_nifty_option_unmatched (st : IndexState) (now : PyDateTime)
    (hv : ValidDate now)
    (hsearch : searchFnoOptions st "NIFTY" "25000" "CE" none "NFO" = []) :
    resolveSymbol (some st) now "NIFTY 25000 CE" "NSE" =
      { success := true, original := "NIFTY 25000 CE"
        resolved_symbol := "NIFTY" ++ weeklyThursdayString now ++ "25000CE"
        token := none, exchange := "NFO", instrument_type := "OPTION"
        message := "Constructed symbol (unvalidated): " ++
          ("NIFTY" ++ weeklyThursdayString now ++ "25000CE") } ∧
    weeklyThursdayString now =
      pad2 (weeklyExpiryDate now).day ++ monthCode (weeklyExpiryDate now).month
        ++ yearYY (weeklyExpiryDate now).year ∧
    (weeklyExpiryDate now).weekday = 3 ∧
    weeklyExpiryDate now = addDays (weeklyExpiryOffset now) now ∧
    weeklyExpiryOffset now ≤ 7 ∧
    (now.weekday = 3 ∧ 15 ≤ now.hour → weeklyExpiryOffset now = 7) ∧
    (¬(now.weekday = 3 ∧ 15 ≤ now.hour) →
      ∀ j, j < weeklyExpiryOffset now → (addDays j now).weekday ≠ 3) ∧
    (pad2 (weeklyExpiryDate now).day).length = 2 ∧
    (pad2 (weeklyExpiryDate now).day).data.all Char.isDigit = true ∧
    monthCode (weeklyExpiryDate now).month ∈
      (["JAN", "FEB", "MAR", "APR", "MAY", "JUN", "JUL", "AUG", "SEP", "OCT",
        "NOV", "DEC"] : List String) ∧
    (yearYY (weeklyExpiryDate now).year).length = 2 ∧
    (yearYY (weeklyExpiryDate now).year).data.all Char.isDigit = true := by
  obtain ⟨hm1, hm2, hd1, hd2, hwk, hh, hy1, hy2⟩ := hv
  have hd31 : now.day ≤ 31 :=
    le_trans hd2 (by unfold daysInMonth; split_ifs <;> omega)
  have hbounds := addDays_bounds now hm1 hm2 hd1 hd31 (weeklyExpiryOffset now)
  have hedm1 : 1 ≤ (weeklyExpiryDate now).month := hbounds.1
  have hedm2 : (weeklyExpiryDate now).month ≤ 12 := hbounds.2.1
  have hedd : (weeklyExpiryDate now).day ≤ 31 := hbounds.2.2.2
  refine ⟨?_, rfl, weeklyExpiryDate_thursday now hwk, rfl,
    weeklyExpiryOffset_le now, fun hc => weeklyExpiryOffset_cutoff now hc,
    fun hnc => weeklyExpiryOffset_minimal now hwk hnc,
    (pad2_shape _ (by omega)).1, (pad2_shape _ (by omega)).2,
    monthCode_mem _ hedm1 hedm2,
    (pad2_shape ((weeklyExpiryDate now).year % 100) (by omega)).1,
    (pad2_shape ((weeklyExpiryDate now).year % 100) (by omega)).2⟩
  have e1 : resolveSymbol (some st) now "NIFTY 25000 CE" "NSE" =
      resolveFnoSymbol (some st) now
        { symbol := "NIFTY", strikeStr := "25000", optionType := "CE"
          expiryHint := none, isOption := true, isFuture := false
          isIndex := true, exchange := "NFO" } "NIFTY 25000 CE" := rfl
  have hstr : ∀ s : String,
      "NIFTY" ++ s ++ "25000" ++ "CE" = "NIFTY" ++ s ++ "25000CE" := by
    intro s
    rw [String.append_assoc ("NIFTY" ++ s)]
    exact congrArg (fun u => "NIFTY" ++ s ++ u) rfl
  rw [e1]
  unfold resolveFnoSymbol
  dsimp only
  rw [hsearch]
  simp only [hstr]
  rfl

/-- C6 (witness): the theorem applied on Monday 2026-10-12 10:00 against an
empty index, resolving to the Thursday 2026-10-15 weekly contract. -/
theorem resolve_nifty_option_unmatched_witness :
    ValidDate { year := 2026, month := 10, day := 12, hour := 10
                weekday := 0 } ∧
    searchFnoOptions emptyIndex "NIFTY" "25000" "CE" none "NFO" = [] ∧
    resolveSymbol (some emptyIndex)
      { year := 2026, month := 10, day := 12, hour := 10, weekday := 0 }
      "NIFTY 25000 CE" "NSE" =
      { success := true, original := "NIFTY 25000 CE"
        resolved_symbol := "NIFTY" ++ weeklyThursdayString
          { year := 2026, month := 10, day := 12, hour := 10, weekday := 0 }
          ++ "25000CE"
        token := none, exchange := "NFO", instrument_type := "OPTION"
        message := "Constructed symbol (unvalidated): " ++
          ("NIFTY" ++ weeklyThursdayString
            { year := 2026, month := 10, day := 12, hour := 10, weekday := 0 }
            ++ "25000CE") } :=
  ⟨by decide, by decide,
    (resolve_nifty_option_unmatched emptyIndex
      { year := 2026, month := 10, day := 12, hour := 10, weekday := 0 }
      (by decide) (by decide)).1⟩

/-- C7: a locally tracked trade whose order id is absent from the
batch-fetched broker order-book map is left completely unchanged by the
reconciliation sweep (every field, at its position in the trade list);
in particular a SUBMITTED trade stays SUBMITTED. -/
theorem sweep_ignores_trades_absent_from_order_book (now : Nat)
    (book : List (String × BrokerOrder)) (t : Trade)
    (habs : ∀ oid, t.order_id = some oid → lookupOrder oid book = none) :
    syncSweepTrade now book t = t ∧
    (∀ trades i, trades.get? i = some t →
      (syncAllOrderStatuses now book trades).get? i = some t) ∧
    (t.status = .SUBMITTED →
      (syncSweepTrade now book t).status = .SUBMITTED) := by
  have h1 : syncSweepTrade now book t = t := by
    unfold syncSweepTrade
    cases ho : t.order_id with
    | none => rfl
    | some oid => simp [habs oid ho]
  refine ⟨h1, ?_, fun hs => by rw [h1]; exact hs⟩
  intro trades i hti
  have hmap : (syncAllOrderStatuses now book trades).get? i =
      (trades.get? i).map
        (fun u => if syncEligible u then syncSweepTrade now book u else u) := by
    simp [syncAllOrderStatuses, List.get?_map]
  rw [hmap, hti]
  simp [h1]

/-- C7 (witness): a SUBMITTED trade against an empty broker order book is
untouched by the sweep. -/
theorem sweep_ignores_trades_absent_from_order_book_witness :
    syncSweepTrade 5 [] sampleSubmittedTrade = sampleSubmittedTrade ∧
    sampleSubmittedTrade.status = .SUBMITTED :=
  ⟨(sweep_ignores_trades_absent_from_order_book 5 []
      sampleSubmittedTrade (fun _ _ => rfl)).1, rfl⟩

/-- C8: with a live price available, the price gate refuses with a
price-deviation reason exactly when the deviation percentage
`|signal - ltp| / ltp * 100` exceeds the tolerance, passes otherwise, and
a signal with no stated entry price passes whenever a live price is
available. -/
theorem price_gate_refuses_iff_deviation_exceeds_tolerance (ltp sp tol : ℚ)
    (hltp : 0 < ltp) (hsp : 0 < sp) :
    ((checkPriceAvailability "success" (.dict (some ltp) none none) (some sp)
        tol).available = false ∧
      (checkPriceAvailability "success" (.dict (some ltp) none none) (some sp)
        tol).reason =
        some (.deviationExceeded (|sp - ltp| / ltp * 100) tol) ↔
      tol < |sp - ltp| / ltp * 100) ∧
    ((checkPriceAvailability "success" (.dict (some ltp) none none) (some sp)
        tol).available = true ↔ |sp - ltp| / ltp * 100 ≤ tol) ∧
    (checkPriceAvailability "success" (.dict (some ltp) none none) none
      tol).available = true := by
  have h1 : pyTruthyQ (some ltp) = true := by
    simp [pyTruthyQ, hltp.ne']
  unfold checkPriceAvailability
  simp only [pyOrQ, h1, if_true, ne_eq, not_true_eq_false, false_and,
    if_false, Bool.not_true, Bool.false_eq_true, Option.getD_some]
  have h2 : pyTruthyQ (some sp) = true := by
    simp [pyTruthyQ, hsp.ne']
  simp only [h2]
  split_ifs with hdev <;> simp_all [pyTruthyQ]

/-- C8 (witness): a signal 2% above a live price of 100 is refused at
tolerance 1 and passes at tolerance 5. -/
theorem price_gate_refuses_iff_deviation_exceeds_tolerance_witness :
    (0:ℚ) < 100 ∧ (0:ℚ) < 102 ∧
    (checkPriceAvailability "success" (.dict (some 100) none none) (some 102)
      1).available = false ∧
    (checkPriceAvailability "success" (.dict (some 100) none none) (some 102)
      5).available = true := by
  refine ⟨by norm_num, by norm_num, ?_, ?_⟩
  · exact ((price_gate_refuses_iff_deviation_exceeds_tolerance 100 102 1
      (by norm_num) (by norm_num)).1.mpr (by norm_num)).1
  · exact (price_gate_refuses_iff_deviation_exceeds_tolerance 100 102 5
      (by norm_num) (by norm_num)).2.1.mpr (by norm_num)

/-- C9 (counterexample): after a failed resolution followed by a failed
placement, the trade is FAILED with the placement error in error_message,
but its notes are untouched (here still None): the resolution warning and
the placement error are NOT recorded together in the notes — the warning is
only logged. -/
theorem placement_failure_keeps_notes_unchanged :
    (executeTradeInternal true sampleTrade failedResolveResult
      (.error "insufficient margin") none 0).1.status = .FAILED ∧
    (executeTradeInternal true sampleTrade failedResolveResult
      (.error "insufficient margin") none 0).1.error_message =
      some "insufficient margin" ∧
    (executeTradeInternal true sampleTrade failedResolveResult
      (.error "insufficient margin") none 0).1.notes = none ∧
    (executeTradeInternal true sampleTrade failedResolveResult
      (.error "insufficient margin") none 0).2 =
      some { symbol := "XYZ", action := "BUY", quantity := 10
             exchange := "NSE", order_type := "MARKET"
             product_type := "INTRADAY", price := none } := by decide

/-- C9 (amended): a resolution failure is non-fatal — the order is still
placed using the trade's existing symbol — and if the placement then fails
the trade ends FAILED with the placement error stored in error_message
only; the notes (and every other field) are unchanged, and the resolution
warning is not persisted anywhere on the trade. -/
theorem resolution_failure_nonfatal (t : Trade) (res : ResolveResult)
    (msg : String) (ostat : Option OrderStatusResult) (now : Nat)
    (hres : res.success = false) :
    (executeTradeInternal true t res (.error msg) ostat now).2 =
      some { symbol := t.symbol, action := t.action, quantity := t.quantity
             exchange := t.exchange, order_type := t.order_type
             product_type := t.product_type, price := t.entry_price } ∧
    (executeTradeInternal true t res (.error msg) ostat now).1 =
      { t with status := .FAILED, error_message := some msg } ∧
    (∀ oid, (executeTradeInternal true t res (.success oid) ostat now).2 =
      some { symbol := t.symbol, action := t.action, quantity := t.quantity
             exchange := t.exchange, order_type := t.order_type
             product_type := t.product_type, price := t.entry_price }) := by
  have hr : applyResolution t res = t := by
    unfold applyResolution
    simp [hres]
  unfold executeTradeInternal
  refine ⟨by simp [hr], by simp [hr], ?_⟩
  intro oid
  cases ostat <;> simp [hr]

/-- C9 (witness): the amended theorem at the concrete failing inputs. -/
theorem resolution_failure_nonfatal_witness :
    failedResolveResult.success = false ∧
    (executeTradeInternal true sampleTrade failedResolveResult
      (.error "insufficient margin") none 0).1 =
      { sampleTrade with status := .FAILED
                         error_message := some "insufficient margin" } :=
  ⟨rfl, (resolution_failure_nonfatal sampleTrade failedResolveResult
    "insufficient margin" none 0 rfl).2.1⟩

/-- Helper for C10: no reachable service state ever has the
`_refresh_token` attribute assigned — no constructor outcome or method
assigns it. -/
theorem reachable_refreshToken_unset {s : AngelState} (h : Reachable s) :
    s.refreshTokenSet = false := by
  induction h with
  | init_no_session => rfl
  | init_restored cid => rfl
  | init_restore_error => rfl
  | login_success cid _ ih => simpa [loginSuccessStep] using ih
  | login_fail _ ih => simpa [loginFailStep] using ih
  | logout _ ih => simpa [logoutStep] using ih
  | place_order profileOk vendor _ ih =>
    unfold placeOrder
    split_ifs <;> simpa using ih

/-- C10: on every reachable logged-in service state, the `place_order`
pre-flight session re-validation can never block with the session-expired
early return: reading `_refresh_token` always raises (the attribute is
never assigned), the handler proceeds, and the call goes through to the
vendor with the state unchanged — for every profile-check outcome. -/
theorem place_order_session_check_never_blocks (s : AngelState)
    (profileOk : Bool) (vendor : PlaceResult) (hreach : Reachable s)
    (hlog : s.isLoggedIn = true) (hapi : s.smartApi = true) :
    placeOrder s profileOk vendor = ((vendor, s), true) := by
  have hrt := reachable_refreshToken_unset hreach
  unfold placeOrder
  simp [hlog, hapi, hrt]

/-- C10 (witness): the state reached by constructing the service and
logging in; even a failing profile check does not block the order. -/
theorem place_order_session_check_never_blocks_witness :
    placeOrder (loginSuccessStep initNoSession "C123") false (.success "OID7") =
      ((.success "OID7", loginSuccessStep initNoSession "C123"), true) :=
  place_order_session_check_never_blocks
    (loginSuccessStep initNoSession "C123") false (.success "OID7")
    (Reachable.login_success "C123" Reachable.init_no_session) rfl rfl

end SignalTrader
